import Mathlib

/-!
Verification development for the learning-assist AI proxy
(backend/gemini_lambda_function.py).

The Python module is shallowly embedded: JSON values are an inductive
type, Python dictionaries are association lists, fallible Python
expressions (attribute access on a wrong type, subscripting, unhashable
keys, ...) are modelled in the Except monad, and the external
collaborators (the HTTP client for the two upstream providers, the
usage key-value store, the clock and the uuid generator) are packaged
in an explicit environment record.  JSON parsing of the inbound body
string is abstracted as a three-way input (missing, invalid, parsed),
since the parser itself is an external library.
-/

namespace GeminiProxy

/-- A JSON value, as produced by json.loads.  Numbers are modelled as
rationals, which is exact for every literal the module manipulates. -/
inductive JVal where
  | null
  | bool (b : Bool)
  | num (q : Rat)
  | str (s : String)
  | arr (xs : List JVal)
  | obj (kvs : List (String × JVal))

/-- First-match lookup in an association list (Python dict access on
the string-keyed dicts produced by json.loads). -/
def jget (kvs : List (String × JVal)) (k : String) : Option JVal :=
  match kvs with
  | [] => none
  | (k1, v) :: rest => if k1 = k then some v else jget rest k

/-- A Python exception, carrying the text str(e). -/
structure PyErr where
  msg : String

/-- The Python type name of a value, as used in exception messages. -/
def pyTypeName : JVal → String
  | .null => "NoneType"
  | .bool _ => "bool"
  | .num q => if q.den = 1 then "int" else "float"
  | .str _ => "str"
  | .arr _ => "list"
  | .obj _ => "dict"

/-- Python str() of a scalar value, used when a value is interpolated
into an f-string.  Lists and dicts never reach an interpolation in the
handler (a TypeError for an unhashable key is raised first), so their
rendering is a best effort. -/
def pyStr : JVal → String
  | .null => "None"
  | .bool true => "True"
  | .bool false => "False"
  | .num q => if q.den = 1 then toString q.num else toString q
  | .str s => s
  | .arr _ => "[...]"
  | .obj _ => "\x7b...\x7d"

/-- Substring test, for the Python expression key in s on a string. -/
def strContainsSub (s pat : String) : Bool :=
  (s.splitOn pat).length ≠ 1

/-- Python expression k in v for a string literal k: key membership on
a dict, element membership on a list, substring on a string, TypeError
otherwise. -/
def pyContains (k : String) : JVal → Except PyErr Bool
  | .obj kvs => .ok (jget kvs k).isSome
  | .arr xs => .ok (xs.any fun v => match v with | JVal.str s => s == k | _ => false)
  | .str s => .ok (strContainsSub s k)
  | v => .error ⟨"argument of type \x27" ++ pyTypeName v ++ "\x27 is not iterable"⟩

/-- Python expression v[k] for a string literal k. -/
def pySubscr (v : JVal) (k : String) : Except PyErr JVal :=
  match v with
  | .obj kvs =>
    match jget kvs k with
    | some x => .ok x
    | none => .error ⟨"\x27" ++ k ++ "\x27"⟩
  | .arr _ => .error ⟨"list indices must be integers or slices, not str"⟩
  | .str _ => .error ⟨"string indices must be integers"⟩
  | v => .error ⟨"\x27" ++ pyTypeName v ++ "\x27 object is not subscriptable"⟩

/-- Python expression v[0]. -/
def pyIndex0 : JVal → Except PyErr JVal
  | .arr [] => .error ⟨"list index out of range"⟩
  | .arr (x :: _) => .ok x
  | .str s =>
    match s.toList with
    | [] => .error ⟨"string index out of range"⟩
    | c :: _ => .ok (.str (String.singleton c))
  | .obj _ => .error ⟨"0"⟩
  | v => .error ⟨"\x27" ++ pyTypeName v ++ "\x27 object is not subscriptable"⟩

/-- Python expression v.get(k, d): AttributeError unless v is a dict. -/
def pyGetDefault (v : JVal) (k : String) (d : JVal) : Except PyErr JVal :=
  match v with
  | .obj kvs => .ok ((jget kvs k).getD d)
  | _ => .error ⟨"\x27" ++ pyTypeName v ++ "\x27 object has no attribute \x27get\x27"⟩

/-- Python iteration over a value: list elements, string characters,
dict keys; TypeError otherwise. -/
def pyIter : JVal → Except PyErr (List JVal)
  | .arr xs => .ok xs
  | .str s => .ok (s.toList.map fun c => JVal.str (String.singleton c))
  | .obj kvs => .ok (kvs.map fun kv => JVal.str kv.1)
  | v => .error ⟨"\x27" ++ pyTypeName v ++ "\x27 object is not iterable"⟩

/-- Numeric view of a value under Python arithmetic (bool counts as an
integer). -/
def pyNumVal : JVal → Option Rat
  | .num q => some q
  | .bool b => some (if b then 1 else 0)
  | _ => none

/-- Python binary +: numeric addition, string and list concatenation,
TypeError otherwise. -/
def pyAdd (a b : JVal) : Except PyErr JVal :=
  match pyNumVal a, pyNumVal b with
  | some x, some y => .ok (.num (x + y))
  | _, _ =>
    match a, b with
    | .str s, .str t => .ok (.str (s ++ t))
    | .arr xs, .arr ys => .ok (.arr (xs ++ ys))
    | a, _ =>
      .error ⟨"unsupported operand type(s) for +: \x27" ++ pyTypeName a ++ "\x27 and \x27" ++ pyTypeName b ++ "\x27"⟩

/-- Python == between a value and a string literal: only a string can
compare equal. -/
def jeqStr (v : JVal) (s : String) : Bool :=
  match v with
  | JVal.str t => t == s
  | _ => false

/-- Python truthiness. -/
def truthy : JVal → Bool
  | .null => false
  | .bool b => b
  | .num q => q ≠ 0
  | .str s => s ≠ ""
  | .arr xs => !xs.isEmpty
  | .obj kvs => !kvs.isEmpty

/-- One row of the learning_assist_gemini_usage table, exactly the
item that track_usage puts.  tokens_used keeps the raw JSON value the
handler extracted (normally a number). -/
structure UsageRecord where
  usage_id : String
  user_id : String
  endpoint : String
  tokens_used : JVal
  timestamp : String
  date : String

/-- Outcome of one outbound requests.post call: a timeout, another
network-level failure (requests.exceptions.RequestException), or a
completed HTTP exchange with a status code and a JSON-decoded body. -/
inductive UpstreamResult where
  | timeout
  | netError
  | ok (status : Nat) (body : JVal)

/-- The external collaborators of one invocation: the two configured
API keys, the two upstream providers as functions from the forwarded
JSON body to an outcome, the usage table (with a flag for a failing
scan), the current UTC date and instant, and the uuid the invocation
would mint. -/
structure Env where
  geminiKey : Option String
  claudeKey : Option String
  geminiCall : JVal → UpstreamResult
  claudeCall : JVal → UpstreamResult
  table : List UsageRecord
  scanFails : Bool
  today : String
  now : String
  freshId : String

/-- The raw request body string, abstracted through json.loads:
absent or empty (treated as an empty object), syntactically invalid,
or valid with its parse result. -/
inductive BodyInput where
  | missing
  | invalid
  | parsed (v : JVal)

/-- The fields of the inbound HTTP event the module reads:
event.get(httpMethod), event body, the Authorization header, and
event.get(pathParameters, ...).get(proxy). -/
structure Event where
  httpMethod : Option String
  body : BodyInput
  authorization : Option String
  proxyPath : Option String

/-- The response envelope.  The constant CORS headers are omitted; the
body field holds the object passed to json.dumps (the OPTIONS branch
returns the raw empty string). -/
structure Response where
  statusCode : Nat
  body : JVal

/-- A body of the shape json.dumps({error: msg}). -/
def errBody (msg : String) : JVal :=
  JVal.obj [("error", JVal.str msg)]

/-- Truthiness of an environment variable read through os.environ.get:
present and non-empty. -/
def keyTruthy : Option String → Bool
  | some s => s ≠ ""
  | none => false

/-- SUPPORTED_MODELS, the model-id to provider-id table. -/
def SUPPORTED_MODELS : List (String × String) :=
  [("gemini-2.5-pro", "gemini"), ("claude-3-5-sonnet-20241022", "claude")]

/-- Lookup in an association list of strings. -/
def slookup (kvs : List (String × String)) (k : String) : Option String :=
  match kvs with
  | [] => none
  | (k1, v) :: rest => if k1 = k then some v else slookup rest k

/-- Python str(list(SUPPORTED_MODELS.keys())), embedded in the
unsupported-model error message. -/
def supportedKeysStr : String :=
  "[\x27gemini-2.5-pro\x27, \x27claude-3-5-sonnet-20241022\x27]"

/-- Python expression model not in SUPPORTED_MODELS (negated): dict
key membership needs a hashable key, so a list or dict raises
TypeError; only a string can match a key. -/
def modelInSupported : JVal → Except PyErr Bool
  | .arr _ => .error ⟨"unhashable type: \x27list\x27"⟩
  | .obj _ => .error ⟨"unhashable type: \x27dict\x27"⟩
  | .str s => .ok (SUPPORTED_MODELS.any fun p => p.1 == s)
  | _ => .ok false

/-- ALLOWED_ENDPOINTS from lambda_handler. -/
def ALLOWED_ENDPOINTS : List String :=
  ["generate-content", "discover-documents", "enhance-section", "analyze-chapter"]

/-- MAX_DAILY_REQUESTS from check_rate_limit. -/
def MAX_DAILY_REQUESTS : Nat := 1000

/-- Structural character-list prefix test (the Python startswith). -/
def strLeadMatch : List Char → List Char → Bool
  | [], _ => true
  | _ :: _, [] => false
  | c :: cs, d :: ds => c == d && strLeadMatch cs ds

/-- Python s.startswith(pre). -/
def strStartsWith (s pre : String) : Bool :=
  strLeadMatch pre.toList s.toList

/-- extract_user_from_token: a header starting with Bearer maps to the
fixed placeholder identity, anything else to the anonymous sentinel. -/
def extract_user_from_token (auth : Option String) : String :=
  if strStartsWith (auth.getD "") "Bearer " then "authenticated_user" else "anonymous"

/-- The number of usage rows for this user dated today, as counted by
the filtered scan in check_rate_limit. -/
def dailyCount (env : Env) (user_id : String) : Nat :=
  (env.table.filter fun r => r.user_id == user_id && r.date == env.today).length

/-- check_rate_limit: a failing scan is swallowed and treated as
allowed with count 0; otherwise allowed iff the daily count is below
MAX_DAILY_REQUESTS, returning the count. -/
def check_rate_limit (env : Env) (user_id : String) : Bool × Nat :=
  if env.scanFails then (true, 0)
  else (decide (dailyCount env user_id < MAX_DAILY_REQUESTS), dailyCount env user_id)

/-- track_usage: the item put into the usage table.  A failing put is
swallowed by the source, so the model records the attempted item; the
handlers below return the list of puts an invocation issues. -/
def track_usage (env : Env) (user_id endpoint : String) (tokens_used : JVal) : UsageRecord :=
  { usage_id := env.freshId
    user_id := user_id
    endpoint := endpoint
    tokens_used := tokens_used
    timestamp := env.now
    date := env.today }

/-- Python dict comprehension removing the model key from the body. -/
def stripModel (kvs : List (String × JVal)) : List (String × JVal) :=
  kvs.filter fun kv => kv.1 ≠ "model"

/-- Inner loop of convert_gemini_to_claude_format: for part in parts,
a part containing a text key contributes one message with the role
computed for the enclosing content entry. -/
def convPartsToMsgs (role : String) : List JVal → Except PyErr (List JVal)
  | [] => .ok []
  | part :: rest => do
    let hasText ← pyContains "text" part
    let hd ←
      if hasText then do
        let t ← pySubscr part "text"
        pure [JVal.obj [("role", JVal.str role), ("content", t)]]
      else
        pure []
    let tl ← convPartsToMsgs role rest
    pure (hd ++ tl)

/-- Outer loop of convert_gemini_to_claude_format: for content in
contents, compute the role (user stays user, everything else becomes
assistant, a missing role defaults to user) and translate the parts
list when present. -/
def convMessages : List JVal → Except PyErr (List JVal)
  | [] => .ok []
  | content :: rest => do
    let roleV ← pyGetDefault content "role" (JVal.str "user")
    let role := if jeqStr roleV "user" then "user" else "assistant"
    let hasParts ← pyContains "parts" content
    let msgs ←
      if hasParts then do
        let partsV ← pySubscr content "parts"
        let parts ← pyIter partsV
        convPartsToMsgs role parts
      else
        pure []
    let tl ← convMessages rest
    pure (msgs ++ tl)

/-- convert_gemini_to_claude_format: flatten contents into Claude
messages and map the generation configuration, with max_tokens
defaulting to 4096 and temperature to 0.7. -/
def convert_gemini_to_claude_format (gemini_body : JVal) (model : String) :
    Except PyErr JVal := do
  let hasContents ← pyContains "contents" gemini_body
  let messages ←
    if hasContents then do
      let cv ← pySubscr gemini_body "contents"
      let cs ← pyIter cv
      convMessages cs
    else
      pure []
  let gc ← pyGetDefault gemini_body "generationConfig" (JVal.obj [])
  let maxTok ← pyGetDefault gc "maxOutputTokens" (JVal.num 4096)
  let temp ← pyGetDefault gc "temperature" (JVal.num (mkRat 7 10))
  pure (JVal.obj
    [("model", JVal.str model),
     ("messages", JVal.arr messages),
     ("max_tokens", maxTok),
     ("temperature", temp)])

/-- convert_claude_to_gemini_format: one candidate whose text is the
text of the first content block (empty when content is absent, empty
or falsy), finishReason MAX_TOKENS exactly when stop_reason is
max_tokens, and totalTokenCount the sum of the usage token fields. -/
def convert_claude_to_gemini_format (claude_response : JVal) :
    Except PyErr JVal := do
  let hasContent ← pyContains "content" claude_response
  let text_content ←
    if hasContent then do
      let c ← pySubscr claude_response "content"
      if truthy c then do
        let c0 ← pyIndex0 c
        pyGetDefault c0 "text" (JVal.str "")
      else
        pure (JVal.str "")
    else
      pure (JVal.str "")
  let hasStop ← pyContains "stop_reason" claude_response
  let finish_reason ←
    if hasStop then do
      let sr ← pySubscr claude_response "stop_reason"
      pure (if jeqStr sr "max_tokens" then "MAX_TOKENS" else "STOP")
    else
      pure "STOP"
  let hasUsage ← pyContains "usage" claude_response
  let tokens_used ←
    if hasUsage then do
      let u ← pySubscr claude_response "usage"
      let it ← pyGetDefault u "input_tokens" (JVal.num 0)
      let ot ← pyGetDefault u "output_tokens" (JVal.num 0)
      pyAdd it ot
    else
      pure (JVal.num 0)
  pure (JVal.obj
    [("candidates", JVal.arr
       [JVal.obj
         [("content", JVal.obj [("parts", JVal.arr [JVal.obj [("text", text_content)]])]),
          ("finishReason", JVal.str finish_reason)]]),
     ("usageMetadata", JVal.obj [("totalTokenCount", tokens_used)])])

/-- The guard of the MAX_TOKENS remap in handle_gemini_request, with
the short-circuit evaluation of the Python conjunction: the membership
test and the unguarded first-candidate subscription run only on a 200
status. -/
def geminiMaxTokensCheck (status : Nat) (rb : JVal) : Except PyErr Bool :=
  if status = 200 then do
    let hasC ← pyContains "candidates" rb
    if hasC then do
      let cands ← pySubscr rb "candidates"
      let c0 ← pyIndex0 cands
      let fr ← pyGetDefault c0 "finishReason" JVal.null
      pure (jeqStr fr "MAX_TOKENS")
    else
      pure false
  else
    pure false

/-- Token extraction in handle_gemini_request: usageMetadata's
totalTokenCount when present, else 0. -/
def geminiTokens (rb : JVal) : Except PyErr JVal := do
  let hasU ← pyContains "usageMetadata" rb
  if hasU then do
    let um ← pySubscr rb "usageMetadata"
    pyGetDefault um "totalTokenCount" (JVal.num 0)
  else
    pure (JVal.num 0)

/-- Token extraction in handle_claude_request: the sum of the usage
input_tokens and output_tokens when usage is present, else 0. -/
def claudeTokens (rb : JVal) : Except PyErr JVal := do
  let hasU ← pyContains "usage" rb
  if hasU then do
    let u ← pySubscr rb "usage"
    let it ← pyGetDefault u "input_tokens" (JVal.num 0)
    let ot ← pyGetDefault u "output_tokens" (JVal.num 0)
    pyAdd it ot
  else
    pure (JVal.num 0)

/-- handle_gemini_request: require the Gemini key, strip the model
field, forward to the provider, remap a 200 whose first candidate
finished with MAX_TOKENS to 422, record usage, and relay the upstream
status and body unchanged.  A timeout maps to 504, another network
failure to 502.  The error case of the result is a Python exception
escaping the function (the local handlers catch only the two
network-exception classes). -/
def handle_gemini_request (env : Env) (endpoint_name : String) (body : JVal)
    (user_id model : String) : Except PyErr (Response × List UsageRecord) :=
  if keyTruthy env.geminiKey = false then
    .ok ({ statusCode := 500, body := errBody "Gemini API key not configured" }, [])
  else
    match body with
    | .obj kvs =>
      match env.geminiCall (.obj (stripModel kvs)) with
      | .timeout => .ok ({ statusCode := 504, body := errBody "Request timeout" }, [])
      | .netError => .ok ({ statusCode := 502, body := errBody "Failed to connect to Gemini API" }, [])
      | .ok status rb => do
        let isMax ← geminiMaxTokensCheck status rb
        if isMax then
          pure ({ statusCode := 422,
                  body := errBody "Output token limit exceeded. Try a shorter prompt or reduce the complexity of your request." }, [])
        else do
          let toks ← geminiTokens rb
          pure ({ statusCode := status, body := rb },
                [track_usage env user_id (endpoint_name ++ "-" ++ model) toks])
    | v => .error ⟨"\x27" ++ pyTypeName v ++ "\x27 object has no attribute \x27items\x27"⟩

/-- handle_claude_request: require the Claude key, translate the body
to the Claude schema, forward, translate the response back to the
canonical schema, record usage from the original Claude usage fields,
and return the upstream status with the translated body. -/
def handle_claude_request (env : Env) (endpoint_name : String) (body : JVal)
    (user_id model : String) : Except PyErr (Response × List UsageRecord) :=
  if keyTruthy env.claudeKey = false then
    .ok ({ statusCode := 500, body := errBody "Claude API key not configured" }, [])
  else do
    let claude_body ← convert_gemini_to_claude_format body model
    match env.claudeCall claude_body with
    | .timeout => pure ({ statusCode := 504, body := errBody "Request timeout" }, [])
    | .netError => pure ({ statusCode := 502, body := errBody "Failed to connect to Claude API" }, [])
    | .ok status rb => do
      let gemini_format_response ← convert_claude_to_gemini_format rb
      let toks ← claudeTokens rb
      pure ({ statusCode := status, body := gemini_format_response },
            [track_usage env user_id (endpoint_name ++ "-" ++ model) toks])

/-- The string content of the model value once it has matched a key
of the supported table (only a string can match; the default branch is
unreachable from the handler). -/
def modelStrOf : JVal → String
  | JVal.str s => s
  | _ => ""

/-- handle_ai_proxy: quota first (429 with the current count), then
the model lookup with its default (400 listing the supported models),
then dispatch to the provider adapter inside a catch-all that maps any
escaping exception to a generic 500.  Exceptions raised before the
dispatch block (a body that is not a dict, an unhashable model value)
escape to the caller. -/
def handle_ai_proxy (env : Env) (endpoint_name : String) (body : JVal)
    (user_id : String) : Except PyErr (Response × List UsageRecord) := do
  let rl := check_rate_limit env user_id
  if rl.1 = false then
    pure ({ statusCode := 429,
            body := JVal.obj [("error", JVal.str "Daily rate limit exceeded"),
                              ("current_usage", JVal.num rl.2)] }, [])
  else do
    let modelV ← pyGetDefault body "model" (JVal.str "gemini-2.5-pro")
    let inTab ← modelInSupported modelV
    if inTab = false then
      pure ({ statusCode := 400,
              body := errBody ("Unsupported model: " ++ pyStr modelV ++ ". Supported models: " ++ supportedKeysStr) }, [])
    else
      let model := modelStrOf modelV
      let provider := (slookup SUPPORTED_MODELS model).getD ""
      let dispatched :=
        if provider = "gemini" then
          handle_gemini_request env endpoint_name body user_id model
        else if provider = "claude" then
          handle_claude_request env endpoint_name body user_id model
        else
          .ok ({ statusCode := 400,
                 body := errBody ("Unknown model provider: " ++ provider) }, [])
      match dispatched with
      | .ok r => pure r
      | .error _ =>
        pure ({ statusCode := 500, body := errBody "Failed to generate content" }, [])

/-- The tail of lambda_handler after the body has been parsed: derive
the user identity, route an allowed endpoint to handle_ai_proxy (with
the top-level catch-all turning an escaped exception into a 500 whose
details field carries the exception text), and answer 404 for any
other path. -/
def routeRequest (env : Env) (event : Event) (body : JVal) : Response × List UsageRecord :=
  let user_id := extract_user_from_token event.authorization
  match event.proxyPath with
  | some path =>
    if path ∈ ALLOWED_ENDPOINTS then
      match handle_ai_proxy env path body user_id with
      | .ok r => r
      | .error e =>
        ({ statusCode := 500,
           body := JVal.obj [("error", JVal.str "Internal server error"),
                             ("details", JVal.str e.msg)] }, [])
    else
      ({ statusCode := 404, body := errBody "Endpoint not found" }, [])
  | none => ({ statusCode := 404, body := errBody "Endpoint not found" }, [])

/-- lambda_handler: OPTIONS short-circuits, then the configured-keys
check, then JSON validity of the body, then routing on the proxy path
with 404 for an endpoint outside ALLOWED_ENDPOINTS. -/
def lambda_handler (env : Env) (event : Event) : Response × List UsageRecord :=
  if event.httpMethod = some "OPTIONS" then
    ({ statusCode := 200, body := JVal.str "" }, [])
  else if keyTruthy env.geminiKey = false ∧ keyTruthy env.claudeKey = false then
    ({ statusCode := 500, body := errBody "No API keys configured on server" }, [])
  else
    match event.body with
    | .invalid => ({ statusCode := 400, body := errBody "Invalid JSON in request body" }, [])
    | .missing => routeRequest env event (JVal.obj [])
    | .parsed v => routeRequest env event v

/-! Reduction lemmas for the Except monad, used to evaluate the
embedded do-blocks inside proofs. -/

@[simp] theorem pyOk_bind {α β : Type} (a : α) (f : α → Except PyErr β) :
    (Except.ok a : Except PyErr α) >>= f = f a := rfl

@[simp] theorem pyError_bind {α β : Type} (e : PyErr) (f : α → Except PyErr β) :
    (Except.error e : Except PyErr α) >>= f = Except.error e := rfl

@[simp] theorem pyOk_map {α β : Type} (a : α) (f : α → β) :
    f <$> (Except.ok a : Except PyErr α) = Except.ok (f a) := rfl

@[simp] theorem pyError_map {α β : Type} (e : PyErr) (f : α → β) :
    f <$> (Except.error e : Except PyErr α) = Except.error e := rfl

@[simp] theorem pyPure_eq {α : Type} (a : α) :
    (pure a : Except PyErr α) = Except.ok a := rfl

/-! Dispatch lemmas shared by the claim theorems. -/

/-- On a non-OPTIONS request with at least one configured key and a
parseable body, lambda_handler reduces to the routing tail. -/
theorem lambda_handler_eq_route (env : Env) (ev : Event) (body : JVal)
    (hm : ev.httpMethod ≠ some "OPTIONS")
    (hk : keyTruthy env.geminiKey = true ∨ keyTruthy env.claudeKey = true)
    (hb : ev.body = BodyInput.parsed body) :
    lambda_handler env ev = routeRequest env ev body := by
  unfold lambda_handler
  rcases hk with h | h <;> simp [hm, hb, h]

/-- An allowed endpoint routes to handle_ai_proxy, with the top-level
catch-all wrapping an escaped exception. -/
theorem route_eq_proxy (env : Env) (ev : Event) (body : JVal) (path : String)
    (hp : ev.proxyPath = some path) (hpa : path ∈ ALLOWED_ENDPOINTS) :
    routeRequest env ev body =
      (match handle_ai_proxy env path body (extract_user_from_token ev.authorization) with
       | .ok r => r
       | .error e =>
         ({ statusCode := 500,
            body := JVal.obj [("error", JVal.str "Internal server error"),
                              ("details", JVal.str e.msg)] }, [])) := by
  unfold routeRequest
  simp [hp, hpa]

/-- When the quota check passes and the body resolves to the Gemini
model id, handle_ai_proxy reduces to the Gemini adapter wrapped in the
dispatch catch-all. -/
theorem proxy_dispatch_gemini (env : Env) (path : String) (kvs : List (String × JVal))
    (uid : String)
    (hq : (check_rate_limit env uid).1 = true)
    (hmv : (jget kvs "model").getD (JVal.str "gemini-2.5-pro") = JVal.str "gemini-2.5-pro") :
    handle_ai_proxy env path (JVal.obj kvs) uid =
      (match handle_gemini_request env path (JVal.obj kvs) uid "gemini-2.5-pro" with
       | .ok r => .ok r
       | .error _ =>
         .ok ({ statusCode := 500, body := errBody "Failed to generate content" }, [])) := by
  unfold handle_ai_proxy
  simp [hq, pyGetDefault, hmv, modelInSupported, SUPPORTED_MODELS, slookup, modelStrOf]

/-- When the quota check passes and the body resolves to the Claude
model id, handle_ai_proxy reduces to the Claude adapter wrapped in the
dispatch catch-all. -/
theorem proxy_dispatch_claude (env : Env) (path : String) (kvs : List (String × JVal))
    (uid : String)
    (hq : (check_rate_limit env uid).1 = true)
    (hmv : (jget kvs "model").getD (JVal.str "gemini-2.5-pro") = JVal.str "claude-3-5-sonnet-20241022") :
    handle_ai_proxy env path (JVal.obj kvs) uid =
      (match handle_claude_request env path (JVal.obj kvs) uid "claude-3-5-sonnet-20241022" with
       | .ok r => .ok r
       | .error _ =>
         .ok ({ statusCode := 500, body := errBody "Failed to generate content" }, [])) := by
  unfold handle_ai_proxy
  simp [hq, pyGetDefault, hmv, modelInSupported, SUPPORTED_MODELS, slookup, modelStrOf]

/-- A 200 upstream body whose first candidate finished with
MAX_TOKENS makes the remap guard fire. -/
theorem maxTokensCheck_true (rkvs c0kvs : List (String × JVal)) (rest : List JVal)
    (hc : jget rkvs "candidates" = some (JVal.arr (JVal.obj c0kvs :: rest)))
    (hf : jget c0kvs "finishReason" = some (JVal.str "MAX_TOKENS")) :
    geminiMaxTokensCheck 200 (JVal.obj rkvs) = .ok true := by
  unfold geminiMaxTokensCheck
  simp [pyContains, hc, pySubscr, pyIndex0, pyGetDefault, hf, jeqStr]

/-- The Gemini adapter on a completed upstream exchange that does not
trip the MAX_TOKENS remap: relay the status and body unchanged and put
exactly one usage record. -/
theorem gemini_relay (env : Env) (path : String) (kvs : List (String × JVal))
    (uid model : String) (st : Nat) (rb toks : JVal)
    (hg : keyTruthy env.geminiKey = true)
    (hc : env.geminiCall (JVal.obj (stripModel kvs)) = .ok st rb)
    (hmx : geminiMaxTokensCheck st rb = .ok false)
    (ht : geminiTokens rb = .ok toks) :
    handle_gemini_request env path (JVal.obj kvs) uid model =
      .ok ({ statusCode := st, body := rb },
           [track_usage env uid (path ++ "-" ++ model) toks]) := by
  unfold handle_gemini_request
  simp [hg, hc, hmx, ht]

/-- The Gemini adapter when the remap guard fires: 422 with the
explanatory message and no usage record. -/
theorem gemini_max_tokens (env : Env) (path : String) (kvs : List (String × JVal))
    (uid model : String) (rb : JVal)
    (hg : keyTruthy env.geminiKey = true)
    (hc : env.geminiCall (JVal.obj (stripModel kvs)) = .ok 200 rb)
    (hmx : geminiMaxTokensCheck 200 rb = .ok true) :
    handle_gemini_request env path (JVal.obj kvs) uid model =
      .ok ({ statusCode := 422,
             body := errBody "Output token limit exceeded. Try a shorter prompt or reduce the complexity of your request." }, []) := by
  unfold handle_gemini_request
  simp [hg, hc, hmx]

/-- The parsed view of the inbound body: an absent or empty body
parses to the empty object, an invalid one to nothing. -/
def bodyVal : BodyInput → Option JVal
  | .missing => some (JVal.obj [])
  | .invalid => none
  | .parsed v => some v

/-- lambda_handler_eq_route stated through bodyVal, covering both the
missing-body default and a parsed body. -/
theorem lambda_handler_route_of_bodyVal (env : Env) (ev : Event) (body : JVal)
    (hm : ev.httpMethod ≠ some "OPTIONS")
    (hk : keyTruthy env.geminiKey = true ∨ keyTruthy env.claudeKey = true)
    (hb : bodyVal ev.body = some body) :
    lambda_handler env ev = routeRequest env ev body := by
  unfold lambda_handler
  cases hev : ev.body <;> simp [hev, bodyVal] at hb <;>
    rcases hk with h | h <;> simp [hm, hev, h, hb]

/-- A path outside ALLOWED_ENDPOINTS (or an absent path parameter)
answers 404 regardless of the store, the quota and the payload. -/
theorem route_not_found (env : Env) (ev : Event) (body : JVal)
    (hnall : ∀ p, ev.proxyPath = some p → p ∉ ALLOWED_ENDPOINTS) :
    routeRequest env ev body = ({ statusCode := 404, body := errBody "Endpoint not found" }, []) := by
  unfold routeRequest
  cases hp : ev.proxyPath with
  | none => simp
  | some p => simp [hnall p hp]

/-- When the scan succeeds and the daily count has reached the
ceiling, handle_ai_proxy rejects with 429 carrying the count, before
looking at the model. -/
theorem proxy_quota_reject (env : Env) (path : String) (body : JVal) (uid : String)
    (hsf : env.scanFails = false)
    (hcnt : MAX_DAILY_REQUESTS ≤ dailyCount env uid) :
    handle_ai_proxy env path body uid =
      .ok ({ statusCode := 429,
             body := JVal.obj [("error", JVal.str "Daily rate limit exceeded"),
                               ("current_usage", JVal.num (dailyCount env uid))] }, []) := by
  have hlt : ¬ (dailyCount env uid < MAX_DAILY_REQUESTS) := Nat.not_lt.mpr hcnt
  unfold handle_ai_proxy check_rate_limit
  simp [hsf, hlt]

/-- When the quota check passes and the body carries a model value
outside the supported table, handle_ai_proxy answers 400 listing the
supported models. -/
theorem proxy_unsupported_model (env : Env) (path : String) (kvs : List (String × JVal))
    (uid : String) (mv : JVal)
    (hq : (check_rate_limit env uid).1 = true)
    (hmj : jget kvs "model" = some mv)
    (hns : modelInSupported mv = .ok false) :
    handle_ai_proxy env path (JVal.obj kvs) uid =
      .ok ({ statusCode := 400,
             body := errBody ("Unsupported model: " ++ pyStr mv ++ ". Supported models: " ++ supportedKeysStr) }, []) := by
  unfold handle_ai_proxy
  simp [hq, pyGetDefault, hmj, hns]

/-! Claim C1. -/

/-- A usage row dated on the environment current day for the
anonymous identity, used to saturate the quota. -/
def recC1 : UsageRecord :=
  { usage_id := "u0", user_id := "anonymous",
    endpoint := "generate-content-gemini-2.5-pro",
    tokens_used := JVal.num 1,
    timestamp := "2025-01-01T00:00:00", date := "2025-01-01" }

/-- A concrete environment whose usage table already holds
MAX_DAILY_REQUESTS rows for today and the anonymous user. -/
def envC1 : Env :=
  { geminiKey := some "k", claudeKey := none,
    geminiCall := fun _ => .netError,
    claudeCall := fun _ => .netError,
    table := List.replicate MAX_DAILY_REQUESTS recC1, scanFails := false,
    today := "2025-01-01", now := "2025-01-01T00:00:00", freshId := "id-c1" }

/-- A concrete request naming a model outside the supported table. -/
def evC1 : Event :=
  { httpMethod := some "POST",
    body := .parsed (JVal.obj [("model", JVal.str "unknown-model")]),
    authorization := none, proxyPath := some "generate-content" }

set_option maxRecDepth 20000 in
/-- C1 counterexample: with the quota already exhausted and an
unsupported model named in the body, the handler answers 429, not the
400 the claimed ordering (model check before quota check) requires. -/
theorem C1_counterexample_quota_before_model :
    lambda_handler envC1 evC1 =
      ({ statusCode := 429,
         body := JVal.obj [("error", JVal.str "Daily rate limit exceeded"),
                           ("current_usage", JVal.num 1000)] }, []) := by
  have h1 : bodyVal evC1.body = some (JVal.obj [("model", JVal.str "unknown-model")]) := rfl
  rw [lambda_handler_route_of_bodyVal envC1 evC1 _ (by decide) (Or.inl rfl) h1,
      route_eq_proxy envC1 evC1 _ "generate-content" rfl (by decide),
      proxy_quota_reject envC1 "generate-content" _
        (extract_user_from_token evC1.authorization) rfl (by decide)]
  rfl

/-- C1 amended: the validation stages of the handler, in the order
the code evaluates them with the first failure winning, on a
non-OPTIONS request: (1) at least one provider key configured, else
500; (2) body syntactically valid JSON (absent treated as an empty
object), else 400; (3) endpoint in the allowed set, else 404 -
independent of the store, hence before any quota check; (4) quota,
else 429 with the current count; (5) model in the supported table,
else 400 listing the supported models.  There is no contents check
for analyze-chapter, and an unsupported model on an exhausted quota
yields 429, not 400. -/
theorem C1_amended_validation_order (env : Env) (ev : Event)
    (hm : ev.httpMethod ≠ some "OPTIONS") :
    (keyTruthy env.geminiKey = false ∧ keyTruthy env.claudeKey = false →
      lambda_handler env ev = ({ statusCode := 500, body := errBody "No API keys configured on server" }, []))
    ∧ ((keyTruthy env.geminiKey = true ∨ keyTruthy env.claudeKey = true) →
        ev.body = BodyInput.invalid →
        lambda_handler env ev = ({ statusCode := 400, body := errBody "Invalid JSON in request body" }, []))
    ∧ (∀ body, (keyTruthy env.geminiKey = true ∨ keyTruthy env.claudeKey = true) →
        bodyVal ev.body = some body →
        (∀ p, ev.proxyPath = some p → p ∉ ALLOWED_ENDPOINTS) →
        lambda_handler env ev = ({ statusCode := 404, body := errBody "Endpoint not found" }, []))
    ∧ (∀ body path, (keyTruthy env.geminiKey = true ∨ keyTruthy env.claudeKey = true) →
        bodyVal ev.body = some body →
        ev.proxyPath = some path → path ∈ ALLOWED_ENDPOINTS →
        env.scanFails = false →
        MAX_DAILY_REQUESTS ≤ dailyCount env (extract_user_from_token ev.authorization) →
        lambda_handler env ev =
          ({ statusCode := 429,
             body := JVal.obj [("error", JVal.str "Daily rate limit exceeded"),
                               ("current_usage", JVal.num (dailyCount env (extract_user_from_token ev.authorization)))] }, []))
    ∧ (∀ kvs path mv, (keyTruthy env.geminiKey = true ∨ keyTruthy env.claudeKey = true) →
        bodyVal ev.body = some (JVal.obj kvs) →
        ev.proxyPath = some path → path ∈ ALLOWED_ENDPOINTS →
        (check_rate_limit env (extract_user_from_token ev.authorization)).1 = true →
        jget kvs "model" = some mv →
        modelInSupported mv = .ok false →
        lambda_handler env ev =
          ({ statusCode := 400,
             body := errBody ("Unsupported model: " ++ pyStr mv ++ ". Supported models: " ++ supportedKeysStr) }, [])) := by
  refine ⟨?_, ?_, ?_, ?_, ?_⟩
  · intro hnk
    unfold lambda_handler
    simp [hm, hnk.1, hnk.2]
  · intro hk hinv
    unfold lambda_handler
    rcases hk with h | h <;> simp [hm, hinv, h]
  · intro body hk hb hnall
    rw [lambda_handler_route_of_bodyVal env ev body hm hk hb,
        route_not_found env ev body hnall]
  · intro body path hk hb hp hpa hsf hcnt
    rw [lambda_handler_route_of_bodyVal env ev body hm hk hb,
        route_eq_proxy env ev body path hp hpa,
        proxy_quota_reject env path body (extract_user_from_token ev.authorization) hsf hcnt]
  · intro kvs path mv hk hb hp hpa hq hmj hns
    rw [lambda_handler_route_of_bodyVal env ev (JVal.obj kvs) hm hk hb,
        route_eq_proxy env ev (JVal.obj kvs) path hp hpa,
        proxy_unsupported_model env path kvs (extract_user_from_token ev.authorization) mv hq hmj hns]

/-- A concrete environment with an empty usage table. -/
def envC1w : Env :=
  { geminiKey := some "k", claudeKey := none,
    geminiCall := fun _ => .netError,
    claudeCall := fun _ => .netError,
    table := [], scanFails := false,
    today := "2025-01-01", now := "2025-01-01T00:00:00", freshId := "id-c1w" }

/-- A concrete request naming an unsupported model. -/
def evC1w : Event :=
  { httpMethod := some "POST",
    body := .parsed (JVal.obj [("model", JVal.str "nope")]),
    authorization := none, proxyPath := some "enhance-section" }

/-- C1 witness: the model stage of the amended ordering applied at a
concrete input. -/
theorem C1_amended_validation_order_witness :
    lambda_handler envC1w evC1w =
      ({ statusCode := 400,
         body := errBody ("Unsupported model: nope. Supported models: " ++ supportedKeysStr) }, []) :=
  (C1_amended_validation_order envC1w evC1w (by decide)).2.2.2.2
    [("model", JVal.str "nope")] "enhance-section" (JVal.str "nope")
    (Or.inl rfl) rfl rfl (by decide) rfl rfl rfl

/-! Claim C3. -/

/-- C3: for every Gemini-routed request where the upstream call
returns HTTP 200 and the first candidate finishReason equals
MAX_TOKENS, the handler returns 422 with an explanatory error message
instead of relaying the 200 upstream response (and no usage record is
put). -/
theorem C3_max_tokens_remap (env : Env) (ev : Event) (kvs : List (String × JVal))
    (path : String) (rkvs c0kvs : List (String × JVal)) (rest : List JVal)
    (hm : ev.httpMethod ≠ some "OPTIONS")
    (hk : keyTruthy env.geminiKey = true)
    (hb : ev.body = BodyInput.parsed (JVal.obj kvs))
    (hp : ev.proxyPath = some path)
    (hpa : path ∈ ALLOWED_ENDPOINTS)
    (hq : (check_rate_limit env (extract_user_from_token ev.authorization)).1 = true)
    (hmv : (jget kvs "model").getD (JVal.str "gemini-2.5-pro") = JVal.str "gemini-2.5-pro")
    (hc : env.geminiCall (JVal.obj (stripModel kvs)) = .ok 200 (JVal.obj rkvs))
    (hcand : jget rkvs "candidates" = some (JVal.arr (JVal.obj c0kvs :: rest)))
    (hfin : jget c0kvs "finishReason" = some (JVal.str "MAX_TOKENS")) :
    lambda_handler env ev =
      ({ statusCode := 422,
         body := errBody "Output token limit exceeded. Try a shorter prompt or reduce the complexity of your request." }, []) := by
  rw [lambda_handler_eq_route env ev (JVal.obj kvs) hm (Or.inl hk) hb,
      route_eq_proxy env ev (JVal.obj kvs) path hp hpa,
      proxy_dispatch_gemini env path kvs (extract_user_from_token ev.authorization) hq hmv,
      gemini_max_tokens env path kvs (extract_user_from_token ev.authorization)
        "gemini-2.5-pro" (JVal.obj rkvs) hk hc
        (maxTokensCheck_true rkvs c0kvs rest hcand hfin)]

/-- A concrete 200 upstream body whose only candidate stopped on
MAX_TOKENS. -/
def rbC3 : JVal :=
  JVal.obj [("candidates", JVal.arr [JVal.obj [("finishReason", JVal.str "MAX_TOKENS")]])]

/-- A concrete environment whose Gemini provider answers 200 with
rbC3. -/
def envC3 : Env :=
  { geminiKey := some "k", claudeKey := none,
    geminiCall := fun _ => .ok 200 rbC3,
    claudeCall := fun _ => .netError,
    table := [], scanFails := false,
    today := "2025-01-01", now := "2025-01-01T00:00:00", freshId := "id-c3" }

/-- A concrete generate-content POST with an empty JSON object body. -/
def evC3 : Event :=
  { httpMethod := some "POST", body := .parsed (JVal.obj []),
    authorization := none, proxyPath := some "generate-content" }

/-- C3 witness: the theorem applied at the concrete input. -/
theorem C3_max_tokens_remap_witness :
    lambda_handler envC3 evC3 =
      ({ statusCode := 422,
         body := errBody "Output token limit exceeded. Try a shorter prompt or reduce the complexity of your request." }, []) :=
  C3_max_tokens_remap envC3 evC3 [] "generate-content"
    [("candidates", JVal.arr [JVal.obj [("finishReason", JVal.str "MAX_TOKENS")]])]
    [("finishReason", JVal.str "MAX_TOKENS")] []
    (by decide) rfl rfl rfl (by decide) rfl rfl rfl rfl rfl

/-! Claim C10. -/

/-- A concrete environment whose Gemini provider answers 200 with a
body whose candidates key holds an empty list. -/
def envC10 : Env :=
  { geminiKey := some "k", claudeKey := none,
    geminiCall := fun _ => .ok 200 (JVal.obj [("candidates", JVal.arr [])]),
    claudeCall := fun _ => .netError,
    table := [], scanFails := false,
    today := "2025-01-01", now := "2025-01-01T00:00:00", freshId := "id-c10" }

/-- A concrete generate-content POST with an empty JSON object body. -/
def evC10 : Event :=
  { httpMethod := some "POST", body := .parsed (JVal.obj []),
    authorization := none, proxyPath := some "generate-content" }

/-- C10: on a Gemini-routed request whose upstream reply is HTTP 200
with an empty candidates list, the unguarded first-candidate
subscription in the MAX_TOKENS check raises IndexError inside the
Gemini adapter, so the handler answers the dispatch-level generic 500
instead of relaying the successful upstream body, and no usage record
is put. -/
theorem C10_empty_candidates_crash :
    lambda_handler envC10 evC10 =
      ({ statusCode := 500, body := errBody "Failed to generate content" }, [])
    ∧ handle_gemini_request envC10 "generate-content" (JVal.obj []) "anonymous" "gemini-2.5-pro"
        = .error ⟨"list index out of range"⟩ :=
  ⟨rfl, rfl⟩

/-! Claim C4. -/

/-- C4: quota enforcement.  (a) When the scan succeeds and the number
of usage rows for the caller dated today has reached
MAX_DAILY_REQUESTS, the next call through the handler is rejected with
429 and the current count in the body.  (b) A row dated on another day
does not change the daily count.  (c) A failing store read is
fail-open: the check answers allowed with count 0. -/
theorem C4_quota_ceiling (env : Env) (ev : Event)
    (hm : ev.httpMethod ≠ some "OPTIONS") :
    (∀ body path, (keyTruthy env.geminiKey = true ∨ keyTruthy env.claudeKey = true) →
        bodyVal ev.body = some body →
        ev.proxyPath = some path → path ∈ ALLOWED_ENDPOINTS →
        env.scanFails = false →
        MAX_DAILY_REQUESTS ≤ dailyCount env (extract_user_from_token ev.authorization) →
        lambda_handler env ev =
          ({ statusCode := 429,
             body := JVal.obj [("error", JVal.str "Daily rate limit exceeded"),
                               ("current_usage", JVal.num (dailyCount env (extract_user_from_token ev.authorization)))] }, []))
    ∧ (∀ (r : UsageRecord) (uid : String), r.date ≠ env.today →
        dailyCount { env with table := r :: env.table } uid = dailyCount env uid)
    ∧ (∀ uid, env.scanFails = true → check_rate_limit env uid = (true, 0)) := by
  refine ⟨?_, ?_, ?_⟩
  · intro body path hk hb hp hpa hsf hcnt
    rw [lambda_handler_route_of_bodyVal env ev body hm hk hb,
        route_eq_proxy env ev body path hp hpa,
        proxy_quota_reject env path body (extract_user_from_token ev.authorization) hsf hcnt]
  · intro r uid hne
    unfold dailyCount
    have hfalse : (r.user_id == uid && r.date == env.today) = false := by
      simp [hne]
    simp [List.filter_cons, hfalse]
  · intro uid hsf
    unfold check_rate_limit
    simp [hsf]

/-- A usage row dated on the current day for the anonymous identity. -/
def recC4 : UsageRecord :=
  { usage_id := "u4", user_id := "anonymous",
    endpoint := "generate-content-gemini-2.5-pro",
    tokens_used := JVal.num 2,
    timestamp := "2025-02-02T00:00:00", date := "2025-02-02" }

/-- A concrete environment whose table holds exactly
MAX_DAILY_REQUESTS rows for today and the anonymous user. -/
def envC4 : Env :=
  { geminiKey := some "k", claudeKey := none,
    geminiCall := fun _ => .netError,
    claudeCall := fun _ => .netError,
    table := List.replicate MAX_DAILY_REQUESTS recC4, scanFails := false,
    today := "2025-02-02", now := "2025-02-02T00:00:00", freshId := "id-c4" }

/-- A concrete discover-documents request with an empty body. -/
def evC4 : Event :=
  { httpMethod := some "POST", body := .missing,
    authorization := none, proxyPath := some "discover-documents" }

set_option maxRecDepth 20000 in
/-- C4 witness: the rejection stage applied at a concrete saturated
table. -/
theorem C4_quota_ceiling_witness :
    lambda_handler envC4 evC4 =
      ({ statusCode := 429,
         body := JVal.obj [("error", JVal.str "Daily rate limit exceeded"),
                           ("current_usage", JVal.num 1000)] }, []) := by
  have h := (C4_quota_ceiling envC4 evC4 (by decide)).1 (JVal.obj []) "discover-documents"
    (Or.inl rfl) rfl rfl (by decide) rfl (by decide)
  exact h.trans (by rfl)

/-! Claim C2. -/

/-- A concrete successful Gemini body for the C2 counterexample. -/
def rbC2 : JVal :=
  JVal.obj
    [("candidates", JVal.arr
       [JVal.obj
         [("content", JVal.obj [("parts", JVal.arr [JVal.obj [("text", JVal.str "analysis")]])]),
          ("finishReason", JVal.str "STOP")]]),
     ("usageMetadata", JVal.obj [("totalTokenCount", JVal.num 42)])]

/-- A concrete environment whose Gemini provider answers 200 with
rbC2. -/
def envC2 : Env :=
  { geminiKey := some "k", claudeKey := none,
    geminiCall := fun _ => .ok 200 rbC2,
    claudeCall := fun _ => .netError,
    table := [], scanFails := false,
    today := "2025-03-03", now := "2025-03-03T00:00:00", freshId := "id-c2" }

/-- A concrete analyze-chapter request whose body is the empty JSON
object, hence without a contents field. -/
def evC2 : Event :=
  { httpMethod := some "POST", body := .parsed (JVal.obj []),
    authorization := none, proxyPath := some "analyze-chapter" }

/-- C2 counterexample: an analyze-chapter request without a contents
field is not rejected with 400 Missing required field: contents - no
such check exists - but relayed upstream like any other request,
here answering 200 with the upstream body and one usage record. -/
theorem C2_counterexample_no_contents_check :
    lambda_handler envC2 evC2 =
      ({ statusCode := 200, body := rbC2 },
       [{ usage_id := "id-c2", user_id := "anonymous",
          endpoint := "analyze-chapter-gemini-2.5-pro",
          tokens_used := JVal.num 42,
          timestamp := "2025-03-03T00:00:00", date := "2025-03-03" }]) := rfl

/-- C2 amended: the absence of a contents field is not a client error
for any endpoint, analyze-chapter included: whatever payload fields
are present are relayed upstream minus the model field, and the
upstream status and body are returned unchanged (on the Gemini path,
when the MAX_TOKENS remap does not fire). -/
theorem C2_amended_contents_not_required (env : Env) (ev : Event)
    (kvs : List (String × JVal)) (path : String) (st : Nat) (rb toks : JVal)
    (hm : ev.httpMethod ≠ some "OPTIONS")
    (hk : keyTruthy env.geminiKey = true)
    (hb : bodyVal ev.body = some (JVal.obj kvs))
    (hp : ev.proxyPath = some path)
    (hpa : path ∈ ALLOWED_ENDPOINTS)
    (hq : (check_rate_limit env (extract_user_from_token ev.authorization)).1 = true)
    (hmv : (jget kvs "model").getD (JVal.str "gemini-2.5-pro") = JVal.str "gemini-2.5-pro")
    (hnoc : jget kvs "contents" = none)
    (hc : env.geminiCall (JVal.obj (stripModel kvs)) = .ok st rb)
    (hmx : geminiMaxTokensCheck st rb = .ok false)
    (ht : geminiTokens rb = .ok toks) :
    lambda_handler env ev =
      ({ statusCode := st, body := rb },
       [track_usage env (extract_user_from_token ev.authorization)
          (path ++ "-" ++ "gemini-2.5-pro") toks]) := by
  rw [lambda_handler_route_of_bodyVal env ev (JVal.obj kvs) hm (Or.inl hk) hb,
      route_eq_proxy env ev (JVal.obj kvs) path hp hpa,
      proxy_dispatch_gemini env path kvs (extract_user_from_token ev.authorization) hq hmv,
      gemini_relay env path kvs (extract_user_from_token ev.authorization)
        "gemini-2.5-pro" st rb toks hk hc hmx ht]

/-- A concrete environment for the C2 witness, with an authenticated
caller. -/
def envC2w : Env :=
  { geminiKey := some "k", claudeKey := none,
    geminiCall := fun _ => .ok 200 rbC2,
    claudeCall := fun _ => .netError,
    table := [], scanFails := false,
    today := "2025-03-04", now := "2025-03-04T09:00:00", freshId := "id-c2w" }

/-- A concrete analyze-chapter request without contents, carrying a
bearer token. -/
def evC2w : Event :=
  { httpMethod := some "POST",
    body := .parsed (JVal.obj [("model", JVal.str "gemini-2.5-pro")]),
    authorization := some "Bearer tok", proxyPath := some "analyze-chapter" }

/-- C2 witness: the amended relay applied at a concrete input. -/
theorem C2_amended_contents_not_required_witness :
    lambda_handler envC2w evC2w =
      ({ statusCode := 200, body := rbC2 },
       [{ usage_id := "id-c2w", user_id := "authenticated_user",
          endpoint := "analyze-chapter-gemini-2.5-pro",
          tokens_used := JVal.num 42,
          timestamp := "2025-03-04T09:00:00", date := "2025-03-04" }]) := by
  have h := C2_amended_contents_not_required envC2w evC2w
    [("model", JVal.str "gemini-2.5-pro")] "analyze-chapter" 200 rbC2 (JVal.num 42)
    (by decide) rfl rfl rfl (by decide) rfl rfl rfl rfl rfl rfl
  exact h.trans (by rfl)

/-! Claim C5. -/

/-- The canonical response envelope of the spec: exactly one
candidate carrying one text part and a finish reason, plus the total
token count. -/
def canonResp (t : JVal) (fr : String) (tok : JVal) : JVal :=
  JVal.obj
    [("candidates", JVal.arr
       [JVal.obj
         [("content", JVal.obj [("parts", JVal.arr [JVal.obj [("text", t)]])]),
          ("finishReason", JVal.str fr)]]),
     ("usageMetadata", JVal.obj [("totalTokenCount", tok)])]

/-- Spec wording for the translated text: the text of the first
content block, empty when content is absent or has no blocks. -/
def specClaudeText (rkvs : List (String × JVal)) : JVal :=
  match jget rkvs "content" with
  | some (JVal.arr (JVal.obj c0kvs :: _)) => (jget c0kvs "text").getD (JVal.str "")
  | _ => JVal.str ""

/-- Spec wording for the finish reason: MAX_TOKENS exactly when the
stop_reason equals max_tokens, STOP for any other or absent value. -/
def specClaudeFinish (rkvs : List (String × JVal)) : String :=
  match jget rkvs "stop_reason" with
  | some sr => if jeqStr sr "max_tokens" then "MAX_TOKENS" else "STOP"
  | none => "STOP"

/-- Spec wording for the token count: input_tokens plus output_tokens
when usage is present, else 0. -/
def specClaudeTokens (rkvs : List (String × JVal)) : JVal :=
  match jget rkvs "usage" with
  | some (JVal.obj ukvs) =>
    match (jget ukvs "input_tokens").getD (JVal.num 0),
          (jget ukvs "output_tokens").getD (JVal.num 0) with
    | JVal.num a, JVal.num b => JVal.num (a + b)
    | _, _ => JVal.num 0
  | _ => JVal.num 0

/-- Well-typedness of a Claude response object as the upstream API
produces it: content absent or a list whose first element, when
present, is an object, and usage absent or an object with numeric
token fields. -/
def claudeRespWF (rkvs : List (String × JVal)) : Prop :=
  (jget rkvs "content" = none ∨ jget rkvs "content" = some (JVal.arr []) ∨
   ∃ c0kvs rest, jget rkvs "content" = some (JVal.arr (JVal.obj c0kvs :: rest)))
  ∧ (jget rkvs "usage" = none ∨
     ∃ ukvs a b, jget rkvs "usage" = some (JVal.obj ukvs)
       ∧ (jget ukvs "input_tokens").getD (JVal.num 0) = JVal.num a
       ∧ (jget ukvs "output_tokens").getD (JVal.num 0) = JVal.num b)

/-- C5 counterexample: on a Claude response with content entirely
absent the translation yields finishReason STOP and empty text, not
the claimed finishReason ERROR with text No content generated. -/
theorem C5_counterexample_no_error_branch :
    convert_claude_to_gemini_format (JVal.obj []) =
      .ok (canonResp (JVal.str "") "STOP" (JVal.num 0))
    ∧ ("STOP" : String) ≠ "ERROR"
    ∧ JVal.str "" ≠ JVal.str "No content generated" :=
  ⟨rfl, by simp, by simp⟩

/-- On every well-typed Claude response object the translation
succeeds and equals the canonical envelope built from the three spec
extractors. -/
theorem claude_translation_spec (rkvs : List (String × JVal))
    (h : claudeRespWF rkvs) :
    convert_claude_to_gemini_format (JVal.obj rkvs) =
      .ok (canonResp (specClaudeText rkvs) (specClaudeFinish rkvs) (specClaudeTokens rkvs)) := by
  obtain ⟨hcont, husage⟩ := h
  unfold convert_claude_to_gemini_format canonResp specClaudeText specClaudeFinish specClaudeTokens
  rcases husage with hu | ⟨ukvs, a, b, hu, ha, hb⟩
  · rcases hcont with hc | hc | ⟨c0kvs, rest, hc⟩ <;>
      cases hsr : jget rkvs "stop_reason" <;>
        simp [pyContains, pySubscr, pyIndex0, pyGetDefault, pyAdd, pyNumVal,
              truthy, hc, hu, hsr]
  · rcases hcont with hc | hc | ⟨c0kvs, rest, hc⟩ <;>
      cases hsr : jget rkvs "stop_reason" <;>
        simp [pyContains, pySubscr, pyIndex0, pyGetDefault, pyAdd, pyNumVal,
              truthy, hc, hu, hsr, ha, hb]

/-- C5 amended: on every well-typed Claude response object the
translation never raises and produces exactly one candidate whose
text is the first content block text (empty when content is absent or
empty), whose finishReason is MAX_TOKENS exactly when stop_reason is
max_tokens and STOP otherwise (there is no ERROR branch), and whose
totalTokenCount is the usage sum. -/
theorem C5_amended_translation (rkvs : List (String × JVal))
    (h : claudeRespWF rkvs) :
    convert_claude_to_gemini_format (JVal.obj rkvs) =
      .ok (canonResp (specClaudeText rkvs) (specClaudeFinish rkvs) (specClaudeTokens rkvs)) :=
  claude_translation_spec rkvs h

/-- A concrete well-typed Claude response with one content block, a
max_tokens stop reason and usage counts. -/
def rkvsC5 : List (String × JVal) :=
  [("content", JVal.arr [JVal.obj [("type", JVal.str "text"), ("text", JVal.str "hello")]]),
   ("stop_reason", JVal.str "max_tokens"),
   ("usage", JVal.obj [("input_tokens", JVal.num 3), ("output_tokens", JVal.num 4)])]

/-- C5 witness: the amended translation applied at a concrete
response. -/
theorem C5_amended_translation_witness :
    convert_claude_to_gemini_format (JVal.obj rkvsC5) =
      .ok (canonResp (JVal.str "hello") "MAX_TOKENS" (JVal.num 7)) := by
  have h := C5_amended_translation rkvsC5
    ⟨Or.inr (Or.inr ⟨[("type", JVal.str "text"), ("text", JVal.str "hello")], [], rfl⟩),
     Or.inr ⟨[("input_tokens", JVal.num 3), ("output_tokens", JVal.num 4)], 3, 4, rfl, rfl, rfl⟩⟩
  refine h.trans ?_
  simp +decide [specClaudeText, specClaudeFinish, specClaudeTokens, rkvsC5, jget, jeqStr, canonResp]
  norm_num

/-! Claims C6 and C7: the request-direction translation. -/

/-- Spec wording for the role of one content entry: user stays user,
every other role becomes assistant, an absent role defaults to user. -/
def specContentRole (ckvs : List (String × JVal)) : String :=
  match jget ckvs "role" with
  | none => "user"
  | some r => if jeqStr r "user" then "user" else "assistant"

/-- Spec wording for the messages contributed by one parts list: one
message per part that carries a text key, in order. -/
def specPartMsgs (role : String) : List JVal → List JVal
  | [] => []
  | JVal.obj pkvs :: rest =>
    (match jget pkvs "text" with
     | some t => [JVal.obj [("role", JVal.str role), ("content", t)]]
     | none => []) ++ specPartMsgs role rest
  | _ :: rest => specPartMsgs role rest

/-- Spec wording for the whole messages list: the concatenation over
the contents entries. -/
def specMsgs : List JVal → List JVal
  | [] => []
  | JVal.obj ckvs :: rest =>
    (match jget ckvs "parts" with
     | some (JVal.arr ps) => specPartMsgs (specContentRole ckvs) ps
     | _ => []) ++ specMsgs rest
  | _ :: rest => specMsgs rest

/-- Spec wording for max_tokens: generationConfig.maxOutputTokens
when present, else 4096. -/
def specMaxTokens (kvs : List (String × JVal)) : JVal :=
  match jget kvs "generationConfig" with
  | some (JVal.obj g) => (jget g "maxOutputTokens").getD (JVal.num 4096)
  | _ => JVal.num 4096

/-- Spec wording for temperature: generationConfig.temperature when
present, else 0.7. -/
def specTemperature (kvs : List (String × JVal)) : JVal :=
  match jget kvs "generationConfig" with
  | some (JVal.obj g) => (jget g "temperature").getD (JVal.num (mkRat 7 10))
  | _ => JVal.num (mkRat 7 10)

/-- Well-shapedness of a contents list as the canonical schema has
it: every entry is an object whose parts field, when present, is a
list of objects. -/
def geminiContentsWF (cs : List JVal) : Prop :=
  ∀ c ∈ cs, ∃ ckvs, c = JVal.obj ckvs ∧
    (jget ckvs "parts" = none ∨
     ∃ ps, jget ckvs "parts" = some (JVal.arr ps) ∧ ∀ p ∈ ps, ∃ pkvs, p = JVal.obj pkvs)

/-- Well-shapedness of the generationConfig field: absent or an
object. -/
def generationConfigWF (kvs : List (String × JVal)) : Prop :=
  jget kvs "generationConfig" = none ∨
  ∃ g, jget kvs "generationConfig" = some (JVal.obj g)

/-- The inner parts loop agrees with the spec wording on a list of
object parts. -/
theorem convPartsToMsgs_spec (role : String) (ps : List JVal)
    (hwf : ∀ p ∈ ps, ∃ pkvs, p = JVal.obj pkvs) :
    convPartsToMsgs role ps = .ok (specPartMsgs role ps) := by
  induction ps with
  | nil => rfl
  | cons p rest ih =>
    have ihr := ih fun q hq => hwf q (List.mem_cons_of_mem p hq)
    obtain ⟨pkvs, rfl⟩ := hwf p (List.mem_cons_self p rest)
    unfold convPartsToMsgs specPartMsgs
    cases ht : jget pkvs "text" <;>
      simp [pyContains, pySubscr, ht, ihr]

/-- The outer contents loop agrees with the spec wording on a
well-shaped contents list. -/
theorem convMessages_spec (cs : List JVal) (hwf : geminiContentsWF cs) :
    convMessages cs = .ok (specMsgs cs) := by
  induction cs with
  | nil => rfl
  | cons c rest ih =>
    have ihr := ih fun q hq => hwf q (List.mem_cons_of_mem c hq)
    obtain ⟨ckvs, rfl, hparts⟩ := hwf c (List.mem_cons_self c rest)
    have hrole : (match (jget ckvs "role").getD (JVal.str "user") with
        | r => if jeqStr r "user" then "user" else "assistant") = specContentRole ckvs := by
      unfold specContentRole
      cases hr : jget ckvs "role" <;> simp [hr, jeqStr]
    unfold convMessages specMsgs
    rcases hparts with hp | ⟨ps, hp, hpswf⟩
    · simp [pyGetDefault, pyContains, hp, ihr, hrole]
    · simp [pyGetDefault, pyContains, pySubscr, pyIter, hp, ihr, hrole,
            convPartsToMsgs_spec _ ps hpswf]

/-- C6: the request translation emits one message per text part of
each contents entry in order, with role user kept and every other
role mapped to assistant, max_tokens defaulting to 4096 and
temperature defaulting to 0.7. -/
theorem C6_request_translation (kvs : List (String × JVal)) (model : String)
    (cs : List JVal)
    (hcs : jget kvs "contents" = some (JVal.arr cs))
    (hwf : geminiContentsWF cs)
    (hgc : generationConfigWF kvs) :
    convert_gemini_to_claude_format (JVal.obj kvs) model =
      .ok (JVal.obj
        [("model", JVal.str model),
         ("messages", JVal.arr (specMsgs cs)),
         ("max_tokens", specMaxTokens kvs),
         ("temperature", specTemperature kvs)]) := by
  unfold convert_gemini_to_claude_format specMaxTokens specTemperature
  rcases hgc with hg | ⟨g, hg⟩ <;>
    simp [pyContains, pySubscr, pyIter, pyGetDefault, jget, hcs, hg,
          convMessages_spec cs hwf]

/-- A concrete two-part canonical request body. -/
def kvsC6 : List (String × JVal) :=
  [("contents", JVal.arr
     [JVal.obj
       [("role", JVal.str "user"),
        ("parts", JVal.arr [JVal.obj [("text", JVal.str "hello")]])],
      JVal.obj
       [("role", JVal.str "model"),
        ("parts", JVal.arr [JVal.obj [("text", JVal.str "world")]])]]),
   ("generationConfig", JVal.obj [("maxOutputTokens", JVal.num 2048)])]

/-- C6 witness: the translation applied at a concrete body. -/
theorem C6_request_translation_witness :
    convert_gemini_to_claude_format (JVal.obj kvsC6) "claude-3-5-sonnet-20241022" =
      .ok (JVal.obj
        [("model", JVal.str "claude-3-5-sonnet-20241022"),
         ("messages", JVal.arr
           [JVal.obj [("role", JVal.str "user"), ("content", JVal.str "hello")],
            JVal.obj [("role", JVal.str "assistant"), ("content", JVal.str "world")]]),
         ("max_tokens", JVal.num 2048),
         ("temperature", JVal.num (mkRat 7 10))]) := by
  have h := C6_request_translation kvsC6 "claude-3-5-sonnet-20241022"
    [JVal.obj
       [("role", JVal.str "user"),
        ("parts", JVal.arr [JVal.obj [("text", JVal.str "hello")]])],
     JVal.obj
       [("role", JVal.str "model"),
        ("parts", JVal.arr [JVal.obj [("text", JVal.str "world")]])]]
    rfl
    (by
      intro c hc
      simp only [List.mem_cons, List.not_mem_nil, or_false] at hc
      rcases hc with rfl | rfl
      · exact ⟨_, rfl, Or.inr ⟨[JVal.obj [("text", JVal.str "hello")]], rfl, by
          intro p hp
          simp only [List.mem_singleton] at hp
          exact ⟨_, hp⟩⟩⟩
      · exact ⟨_, rfl, Or.inr ⟨[JVal.obj [("text", JVal.str "world")]], rfl, by
          intro p hp
          simp only [List.mem_singleton] at hp
          exact ⟨_, hp⟩⟩⟩)
    (Or.inr ⟨[("maxOutputTokens", JVal.num 2048)], rfl⟩)
  exact h.trans (by rfl)

/-- The content field of a translated Claude message. -/
def msgContent : JVal → JVal
  | JVal.obj mkvs => (jget mkvs "content").getD JVal.null
  | _ => JVal.null

/-- The text values of the parts of one entry, in order. -/
def specPartTexts : List JVal → List JVal
  | [] => []
  | JVal.obj pkvs :: rest =>
    (match jget pkvs "text" with
     | some t => [t]
     | none => []) ++ specPartTexts rest
  | _ :: rest => specPartTexts rest

/-- All part texts of a contents list, flattened in order. -/
def specContentTexts : List JVal → List JVal
  | [] => []
  | JVal.obj ckvs :: rest =>
    (match jget ckvs "parts" with
     | some (JVal.arr ps) => specPartTexts ps
     | _ => []) ++ specContentTexts rest
  | _ :: rest => specContentTexts rest

/-- The contents of the messages of one parts list are exactly its
texts, in order. -/
theorem specPartMsgs_texts (role : String) (ps : List JVal) :
    (specPartMsgs role ps).map msgContent = specPartTexts ps := by
  induction ps with
  | nil => rfl
  | cons p rest ih =>
    cases p <;> unfold specPartMsgs specPartTexts <;> simp [ih]
    rename_i pkvs
    cases ht : jget pkvs "text" <;> simp [msgContent, jget, ih]

/-- The contents of the translated messages are exactly the part
texts of the request, in order. -/
theorem specMsgs_texts (cs : List JVal) :
    (specMsgs cs).map msgContent = specContentTexts cs := by
  induction cs with
  | nil => rfl
  | cons c rest ih =>
    cases c <;> unfold specMsgs specContentTexts <;> simp [ih]
    rename_i ckvs
    cases hp : jget ckvs "parts" with
    | none => simp [ih]
    | some v => cases v <;> simp [ih, specPartMsgs_texts]

/-! Claim C7. -/

/-- C7: the Claude-path translations preserve message text exactly.
Request direction: on a well-shaped canonical body the translated
messages carry, in order, exactly the part texts, unchanged.
Response direction: the text of the first Claude content block
reappears unchanged as the single candidate text of the translated
response. -/
theorem C7_round_trip_text_preservation :
    (∀ (kvs : List (String × JVal)) (model : String) (cs : List JVal),
      jget kvs "contents" = some (JVal.arr cs) →
      geminiContentsWF cs →
      generationConfigWF kvs →
      ∃ mt tp,
        convert_gemini_to_claude_format (JVal.obj kvs) model =
          .ok (JVal.obj
            [("model", JVal.str model),
             ("messages", JVal.arr (specMsgs cs)),
             ("max_tokens", mt),
             ("temperature", tp)])
        ∧ (specMsgs cs).map msgContent = specContentTexts cs)
    ∧ (∀ (rkvs c0kvs : List (String × JVal)) (rest : List JVal) (t : JVal),
      jget rkvs "content" = some (JVal.arr (JVal.obj c0kvs :: rest)) →
      jget c0kvs "text" = some t →
      (jget rkvs "usage" = none ∨
       ∃ ukvs a b, jget rkvs "usage" = some (JVal.obj ukvs)
         ∧ (jget ukvs "input_tokens").getD (JVal.num 0) = JVal.num a
         ∧ (jget ukvs "output_tokens").getD (JVal.num 0) = JVal.num b) →
      ∃ fr tok,
        convert_claude_to_gemini_format (JVal.obj rkvs) = .ok (canonResp t fr tok)) := by
  constructor
  · intro kvs model cs hcs hwf hgc
    refine ⟨specMaxTokens kvs, specTemperature kvs, ?_, specMsgs_texts cs⟩
    unfold convert_gemini_to_claude_format specMaxTokens specTemperature
    rcases hgc with hg | ⟨g, hg⟩ <;>
      simp [pyContains, pySubscr, pyIter, pyGetDefault, jget, hcs, hg,
            convMessages_spec cs hwf]
  · intro rkvs c0kvs rest t hc hct husage
    have h := claude_translation_spec rkvs
      ⟨Or.inr (Or.inr ⟨c0kvs, rest, hc⟩), husage⟩
    have htext : specClaudeText rkvs = t := by
      unfold specClaudeText
      rw [hc]
      simp [hct]
    exact ⟨specClaudeFinish rkvs, specClaudeTokens rkvs, by rw [h, htext]⟩

/-- A concrete Claude response carrying the text echo. -/
def rkvsC7 : List (String × JVal) :=
  [("content", JVal.arr [JVal.obj [("text", JVal.str "echo")]]),
   ("stop_reason", JVal.str "end_turn")]

/-- C7 witness: both directions applied at concrete inputs: the
request texts hello, world come back in order as message contents,
and the response text echo survives the response translation. -/
theorem C7_round_trip_text_preservation_witness :
    (∃ mt tp,
      convert_gemini_to_claude_format (JVal.obj kvsC6) "claude-3-5-sonnet-20241022" =
        .ok (JVal.obj
          [("model", JVal.str "claude-3-5-sonnet-20241022"),
           ("messages", JVal.arr
             (specMsgs
               [JVal.obj
                 [("role", JVal.str "user"),
                  ("parts", JVal.arr [JVal.obj [("text", JVal.str "hello")]])],
                JVal.obj
                 [("role", JVal.str "model"),
                  ("parts", JVal.arr [JVal.obj [("text", JVal.str "world")]])]])),
           ("max_tokens", mt),
           ("temperature", tp)])
      ∧ (specMsgs
          [JVal.obj
            [("role", JVal.str "user"),
             ("parts", JVal.arr [JVal.obj [("text", JVal.str "hello")]])],
           JVal.obj
            [("role", JVal.str "model"),
             ("parts", JVal.arr [JVal.obj [("text", JVal.str "world")]])]]).map msgContent
        = [JVal.str "hello", JVal.str "world"])
    ∧ (∃ fr tok,
        convert_claude_to_gemini_format (JVal.obj rkvsC7) =
          .ok (canonResp (JVal.str "echo") fr tok)) := by
  constructor
  · have h := C7_round_trip_text_preservation.1 kvsC6 "claude-3-5-sonnet-20241022"
      [JVal.obj
        [("role", JVal.str "user"),
         ("parts", JVal.arr [JVal.obj [("text", JVal.str "hello")]])],
       JVal.obj
        [("role", JVal.str "model"),
         ("parts", JVal.arr [JVal.obj [("text", JVal.str "world")]])]]
      rfl
      (by
        intro c hc
        simp only [List.mem_cons, List.not_mem_nil, or_false] at hc
        rcases hc with rfl | rfl
        · exact ⟨_, rfl, Or.inr ⟨[JVal.obj [("text", JVal.str "hello")]], rfl, by
            intro p hp
            simp only [List.mem_singleton] at hp
            exact ⟨_, hp⟩⟩⟩
        · exact ⟨_, rfl, Or.inr ⟨[JVal.obj [("text", JVal.str "world")]], rfl, by
            intro p hp
            simp only [List.mem_singleton] at hp
            exact ⟨_, hp⟩⟩⟩)
      (Or.inr ⟨[("maxOutputTokens", JVal.num 2048)], rfl⟩)
    obtain ⟨mt, tp, heq, hmap⟩ := h
    exact ⟨mt, tp, heq, hmap.trans (by rfl)⟩
  · exact C7_round_trip_text_preservation.2 rkvsC7
      [("text", JVal.str "echo")] [] (JVal.str "echo") rfl rfl (Or.inl rfl)

/-- The Gemini adapter never puts more than one usage record. -/
theorem gemini_writes_le_one (env : Env) (ep : String) (body : JVal)
    (uid model : String) (r : Response × List UsageRecord)
    (h : handle_gemini_request env ep body uid model = .ok r) :
    r.2.length ≤ 1 := by
  unfold handle_gemini_request at h
  split at h
  · cases h; simp
  · split at h
    · rename_i kvs
      split at h
      · cases h; simp
      · cases h; simp
      · rename_i st rb hcall
        cases hmx : geminiMaxTokensCheck st rb with
        | error e => rw [hmx] at h; simp at h
        | ok b =>
          rw [hmx] at h
          cases b with
          | true => simp at h; cases h; simp
          | false =>
            simp at h
            cases ht : geminiTokens rb with
            | error e => rw [ht] at h; simp at h
            | ok t => rw [ht] at h; simp at h; cases h; simp
    · simp at h

/-- The Claude adapter never puts more than one usage record. -/
theorem claude_writes_le_one (env : Env) (ep : String) (body : JVal)
    (uid model : String) (r : Response × List UsageRecord)
    (h : handle_claude_request env ep body uid model = .ok r) :
    r.2.length ≤ 1 := by
  unfold handle_claude_request at h
  split at h
  · cases h; simp
  · cases hcb : convert_gemini_to_claude_format body model with
    | error e => rw [hcb] at h; simp at h
    | ok cb =>
      rw [hcb] at h
      simp only [pyOk_bind] at h
      split at h
      · cases h; simp
      · cases h; simp
      · rename_i st rb hcall
        cases hgf : convert_claude_to_gemini_format rb with
        | error e => rw [hgf] at h; simp at h
        | ok gf =>
          rw [hgf] at h
          simp only [pyOk_bind] at h
          cases ht : claudeTokens rb with
          | error e => rw [ht] at h; simp at h
          | ok t => rw [ht] at h; simp at h; cases h; simp

/-- handle_ai_proxy never puts more than one usage record. -/
theorem proxy_writes_le_one (env : Env) (path : String) (body : JVal)
    (uid : String) (r : Response × List UsageRecord)
    (h : handle_ai_proxy env path body uid = .ok r) :
    r.2.length ≤ 1 := by
  simp only [handle_ai_proxy] at h
  split at h
  · cases h; simp
  · cases hmv : pyGetDefault body "model" (JVal.str "gemini-2.5-pro") with
    | error e => rw [hmv] at h; simp at h
    | ok mv =>
      rw [hmv] at h
      simp only [pyOk_bind] at h
      cases hin : modelInSupported mv with
      | error e => rw [hin] at h; simp at h
      | ok b =>
        rw [hin] at h
        simp only [pyOk_bind] at h
        split at h
        · cases h; simp
        · by_cases hpg : (slookup SUPPORTED_MODELS (modelStrOf mv)).getD "" = "gemini"
          · rw [if_pos hpg] at h
            cases hG : handle_gemini_request env path body uid (modelStrOf mv) with
            | ok r2 =>
              rw [hG] at h
              simp at h
              cases h
              exact gemini_writes_le_one env path body uid _ _ hG
            | error e =>
              rw [hG] at h
              simp at h
              cases h
              simp
          · rw [if_neg hpg] at h
            by_cases hpc : (slookup SUPPORTED_MODELS (modelStrOf mv)).getD "" = "claude"
            · rw [if_pos hpc] at h
              cases hC : handle_claude_request env path body uid (modelStrOf mv) with
              | ok r2 =>
                rw [hC] at h
                simp at h
                cases h
                exact claude_writes_le_one env path body uid _ _ hC
              | error e =>
                rw [hC] at h
                simp at h
                cases h
                simp
            · rw [if_neg hpc] at h
              simp at h
              cases h
              simp

/-- The routing tail never puts more than one usage record. -/
theorem route_writes_le_one (env : Env) (ev : Event) (body : JVal) :
    (routeRequest env ev body).2.length ≤ 1 := by
  simp only [routeRequest]
  split
  · split
    · split
      · rename_i r hap
        exact proxy_writes_le_one env _ body _ r hap
      · simp
    · simp
  · simp

/-- Every invocation puts at most one usage record. -/
theorem lambda_writes_le_one (env : Env) (ev : Event) :
    (lambda_handler env ev).2.length ≤ 1 := by
  unfold lambda_handler
  split
  · simp
  · split
    · simp
    · split
      · simp
      · exact route_writes_le_one env ev (JVal.obj [])
      · exact route_writes_le_one env ev _

/-- The Claude adapter on a completed upstream exchange: relay the
upstream status with the translated body and put exactly one usage
record carrying the summed token count. -/
theorem claude_relay (env : Env) (ep : String) (body : JVal) (uid model : String)
    (st : Nat) (rb cb gf toks : JVal)
    (hk : keyTruthy env.claudeKey = true)
    (hcb : convert_gemini_to_claude_format body model = .ok cb)
    (hc : env.claudeCall cb = .ok st rb)
    (hgf : convert_claude_to_gemini_format rb = .ok gf)
    (ht : claudeTokens rb = .ok toks) :
    handle_claude_request env ep body uid model =
      .ok ({ statusCode := st, body := gf },
           [track_usage env uid (ep ++ "-" ++ model) toks]) := by
  unfold handle_claude_request
  simp [hk, hcb, hc, hgf, ht]

/-- A timeout of the Gemini upstream call answers 504 and puts no
usage record. -/
theorem gemini_timeout_no_write (env : Env) (ep : String) (kvs : List (String × JVal))
    (uid model : String)
    (hg : keyTruthy env.geminiKey = true)
    (hc : env.geminiCall (JVal.obj (stripModel kvs)) = .timeout) :
    handle_gemini_request env ep (JVal.obj kvs) uid model =
      .ok ({ statusCode := 504, body := errBody "Request timeout" }, []) := by
  unfold handle_gemini_request
  simp [hg, hc]

/-- A network failure of the Gemini upstream call answers 502 and
puts no usage record. -/
theorem gemini_neterror_no_write (env : Env) (ep : String) (kvs : List (String × JVal))
    (uid model : String)
    (hg : keyTruthy env.geminiKey = true)
    (hc : env.geminiCall (JVal.obj (stripModel kvs)) = .netError) :
    handle_gemini_request env ep (JVal.obj kvs) uid model =
      .ok ({ statusCode := 502, body := errBody "Failed to connect to Gemini API" }, []) := by
  unfold handle_gemini_request
  simp [hg, hc]

/-- A concrete 200 upstream body that finished on MAX_TOKENS, with
usage metadata present. -/
def rbC8 : JVal :=
  JVal.obj
    [("candidates", JVal.arr [JVal.obj [("finishReason", JVal.str "MAX_TOKENS")]]),
     ("usageMetadata", JVal.obj [("totalTokenCount", JVal.num 77)])]

/-- A concrete environment whose Gemini provider answers 200 with
rbC8. -/
def envC8 : Env :=
  { geminiKey := some "k", claudeKey := none,
    geminiCall := fun _ => .ok 200 rbC8,
    claudeCall := fun _ => .netError,
    table := [], scanFails := false,
    today := "2025-04-04", now := "2025-04-04T00:00:00", freshId := "id-c8" }

/-- A concrete generate-content request with an empty body. -/
def evC8 : Event :=
  { httpMethod := some "POST", body := .parsed (JVal.obj []),
    authorization := none, proxyPath := some "generate-content" }

/-- C8 counterexample: the upstream exchange completes successfully
with HTTP 200, yet the invocation puts no usage record, because the
MAX_TOKENS remap returns before track_usage runs - contradicting a
record written after every successful upstream response. -/
theorem C8_counterexample_success_without_record :
    envC8.geminiCall (JVal.obj []) = .ok 200 rbC8
    ∧ lambda_handler envC8 evC8 =
        ({ statusCode := 422,
           body := errBody "Output token limit exceeded. Try a shorter prompt or reduce the complexity of your request." }, []) :=
  ⟨rfl, rfl⟩

/-- C8 amended: per invocation at most one usage record is put.  On
the Gemini path a record is put exactly when the upstream exchange
completes and the MAX_TOKENS remap does not fire, carrying a fresh
usage_id, the caller user_id, the endpoint suffixed with the model
id, the current instant and day, and tokens_used equal to
usageMetadata.totalTokenCount (0 when absent); a timeout or network
failure puts nothing.  On the Claude path the relayed exchange puts
the analogous record with tokens_used the sum input_tokens +
output_tokens (0 when usage is absent).  The component only ever
creates records; nothing mutates or deletes them. -/
theorem C8_amended_usage_lifecycle (env : Env) :
    (∀ ev, (lambda_handler env ev).2.length ≤ 1)
    ∧ (∀ ep kvs uid model st rb toks,
        keyTruthy env.geminiKey = true →
        env.geminiCall (JVal.obj (stripModel kvs)) = .ok st rb →
        geminiMaxTokensCheck st rb = .ok false →
        geminiTokens rb = .ok toks →
        handle_gemini_request env ep (JVal.obj kvs) uid model =
          .ok ({ statusCode := st, body := rb },
               [{ usage_id := env.freshId, user_id := uid,
                  endpoint := ep ++ "-" ++ model, tokens_used := toks,
                  timestamp := env.now, date := env.today }]))
    ∧ (∀ ep body uid model st rb cb gf toks,
        keyTruthy env.claudeKey = true →
        convert_gemini_to_claude_format body model = .ok cb →
        env.claudeCall cb = .ok st rb →
        convert_claude_to_gemini_format rb = .ok gf →
        claudeTokens rb = .ok toks →
        handle_claude_request env ep body uid model =
          .ok ({ statusCode := st, body := gf },
               [{ usage_id := env.freshId, user_id := uid,
                  endpoint := ep ++ "-" ++ model, tokens_used := toks,
                  timestamp := env.now, date := env.today }]))
    ∧ (∀ ep kvs uid model,
        keyTruthy env.geminiKey = true →
        env.geminiCall (JVal.obj (stripModel kvs)) = .timeout →
        handle_gemini_request env ep (JVal.obj kvs) uid model =
          .ok ({ statusCode := 504, body := errBody "Request timeout" }, []))
    ∧ (∀ ep kvs uid model,
        keyTruthy env.geminiKey = true →
        env.geminiCall (JVal.obj (stripModel kvs)) = .netError →
        handle_gemini_request env ep (JVal.obj kvs) uid model =
          .ok ({ statusCode := 502, body := errBody "Failed to connect to Gemini API" }, []))
    ∧ (∀ rkvs ukvs t,
        jget rkvs "usageMetadata" = some (JVal.obj ukvs) →
        jget ukvs "totalTokenCount" = some t →
        geminiTokens (JVal.obj rkvs) = .ok t)
    ∧ (∀ rkvs, jget rkvs "usageMetadata" = none →
        geminiTokens (JVal.obj rkvs) = .ok (JVal.num 0))
    ∧ (∀ rkvs ukvs a b,
        jget rkvs "usage" = some (JVal.obj ukvs) →
        (jget ukvs "input_tokens").getD (JVal.num 0) = JVal.num a →
        (jget ukvs "output_tokens").getD (JVal.num 0) = JVal.num b →
        claudeTokens (JVal.obj rkvs) = .ok (JVal.num (a + b)))
    ∧ (∀ rkvs, jget rkvs "usage" = none →
        claudeTokens (JVal.obj rkvs) = .ok (JVal.num 0)) := by
  refine ⟨lambda_writes_le_one env, ?_, ?_, ?_, ?_, ?_, ?_, ?_, ?_⟩
  · intro ep kvs uid model st rb toks hg hc hmx ht
    exact (gemini_relay env ep kvs uid model st rb toks hg hc hmx ht).trans (by rfl)
  · intro ep body uid model st rb cb gf toks hk hcb hc hgf ht
    exact (claude_relay env ep body uid model st rb cb gf toks hk hcb hc hgf ht).trans (by rfl)
  · intro ep kvs uid model hg hc
    exact gemini_timeout_no_write env ep kvs uid model hg hc
  · intro ep kvs uid model hg hc
    exact gemini_neterror_no_write env ep kvs uid model hg hc
  · intro rkvs ukvs t hm htc
    unfold geminiTokens
    simp [pyContains, pySubscr, pyGetDefault, hm, htc]
  · intro rkvs hm
    unfold geminiTokens
    simp [pyContains, hm]
  · intro rkvs ukvs a b hm ha hb
    unfold claudeTokens
    simp [pyContains, pySubscr, pyGetDefault, pyAdd, pyNumVal, hm, ha, hb]
  · intro rkvs hm
    unfold claudeTokens
    simp [pyContains, hm]

/-- A concrete 200 upstream body with a STOP candidate and a token
count of 9. -/
def rbC8w : JVal :=
  JVal.obj
    [("candidates", JVal.arr [JVal.obj [("finishReason", JVal.str "STOP")]]),
     ("usageMetadata", JVal.obj [("totalTokenCount", JVal.num 9)])]

/-- A concrete environment whose Gemini provider answers 200 with
rbC8w. -/
def envC8w : Env :=
  { geminiKey := some "k", claudeKey := none,
    geminiCall := fun _ => .ok 200 rbC8w,
    claudeCall := fun _ => .netError,
    table := [], scanFails := false,
    today := "2025-04-05", now := "2025-04-05T00:00:00", freshId := "id-c8w" }

/-- C8 witness: the Gemini relay stage applied at a concrete input
puts exactly one record with the extracted token count. -/
theorem C8_amended_usage_lifecycle_witness :
    handle_gemini_request envC8w "generate-content" (JVal.obj []) "anonymous" "gemini-2.5-pro" =
      .ok ({ statusCode := 200, body := rbC8w },
           [{ usage_id := "id-c8w", user_id := "anonymous",
              endpoint := "generate-content-gemini-2.5-pro",
              tokens_used := JVal.num 9,
              timestamp := "2025-04-05T00:00:00", date := "2025-04-05" }]) := by
  have h := (C8_amended_usage_lifecycle envC8w).2.1 "generate-content" [] "anonymous"
    "gemini-2.5-pro" 200 rbC8w (JVal.num 9) rfl rfl (by rfl) (by rfl)
  exact h.trans (by rfl)

/-! Claim C9. -/

/-- A concrete environment for the C9 counterexample. -/
def envC9 : Env :=
  { geminiKey := some "k", claudeKey := none,
    geminiCall := fun _ => .netError,
    claudeCall := fun _ => .netError,
    table := [], scanFails := false,
    today := "2025-05-05", now := "2025-05-05T00:00:00", freshId := "id-c9" }

/-- A concrete request whose body is the valid JSON array [], not an
object. -/
def evC9 : Event :=
  { httpMethod := some "POST", body := .parsed (JVal.arr []),
    authorization := none, proxyPath := some "generate-content" }

/-- C9 counterexample: a JSON-array body raises AttributeError inside
handle_ai_proxy before the dispatch try block; the top-level handler
catches it and returns 500 whose body carries the internal exception
text in a details field - the body does contain internal exception
text. -/
theorem C9_counterexample_details_leak :
    lambda_handler envC9 evC9 =
      ({ statusCode := 500,
         body := JVal.obj
           [("error", JVal.str "Internal server error"),
            ("details", JVal.str "\x27list\x27 object has no attribute \x27get\x27")] }, []) := rfl

/-- C9 amended: an internal error raised during provider dispatch
(inside the adapter call) is caught by the dispatch catch-all and
mapped to the generic 500 body Failed to generate content, which
carries no exception text; but an exception escaping handle_ai_proxy
before dispatch reaches the top-level handler, which does embed the
exception text in a details field. -/
theorem C9_amended_dispatch_error_generic (env : Env) (ev : Event)
    (kvs : List (String × JVal)) (path : String) (e : PyErr)
    (hm : ev.httpMethod ≠ some "OPTIONS")
    (hk : keyTruthy env.geminiKey = true)
    (hb : bodyVal ev.body = some (JVal.obj kvs))
    (hp : ev.proxyPath = some path)
    (hpa : path ∈ ALLOWED_ENDPOINTS)
    (hq : (check_rate_limit env (extract_user_from_token ev.authorization)).1 = true)
    (hmv : (jget kvs "model").getD (JVal.str "gemini-2.5-pro") = JVal.str "gemini-2.5-pro")
    (herr : handle_gemini_request env path (JVal.obj kvs)
        (extract_user_from_token ev.authorization) "gemini-2.5-pro" = .error e) :
    lambda_handler env ev =
      ({ statusCode := 500, body := errBody "Failed to generate content" }, []) := by
  rw [lambda_handler_route_of_bodyVal env ev (JVal.obj kvs) hm (Or.inl hk) hb,
      route_eq_proxy env ev (JVal.obj kvs) path hp hpa,
      proxy_dispatch_gemini env path kvs (extract_user_from_token ev.authorization) hq hmv,
      herr]

/-- A concrete environment whose Gemini provider answers 200 with an
empty candidates list, so the adapter raises IndexError. -/
def envC9w : Env :=
  { geminiKey := some "k", claudeKey := none,
    geminiCall := fun _ => .ok 200 (JVal.obj [("candidates", JVal.arr [])]),
    claudeCall := fun _ => .netError,
    table := [], scanFails := false,
    today := "2025-05-06", now := "2025-05-06T00:00:00", freshId := "id-c9w" }

/-- A concrete enhance-section request with an empty object body. -/
def evC9w : Event :=
  { httpMethod := some "POST", body := .parsed (JVal.obj []),
    authorization := none, proxyPath := some "enhance-section" }

/-- C9 witness: the amended statement applied at a concrete adapter
error. -/
theorem C9_amended_dispatch_error_generic_witness :
    lambda_handler envC9w evC9w =
      ({ statusCode := 500, body := errBody "Failed to generate content" }, []) :=
  C9_amended_dispatch_error_generic envC9w evC9w [] "enhance-section"
    ⟨"list index out of range"⟩
    (by decide) rfl rfl rfl (by decide) rfl rfl rfl

end GeminiProxy
